import Mathlib

/-!
Shallow embedding of the AnveshAI video generator web application
(source file app.py) and verification of its specification claims.

The embedding models, faithfully to the Python source:
  * the session secret fallback (app.secret_key),
  * the admin password configuration and the admin login POST handler,
  * the metadata document (videos list plus total_generated counter),
  * the delete_video route,
  * the frame fetcher generate_image_async with its retry and backoff
    schedule (HTTP outcomes are supplied by an oracle, one outcome per
    attempt; sleeps are recorded as a trace of wait durations),
  * the orchestrator generate_frames,
  * the duration normalization arithmetic of create_video (exact
    rational arithmetic in place of Python floats),
  * the generate_video POST route as a function on an explicit
    application state (frames directory, videos directory, metadata),
    with assembly success or failure supplied as an oracle flag.
-/

/-! ## Definitions: the shallow embedding of app.py -/

/-- app.secret_key takes the SESSION_SECRET environment variable when
present and otherwise the built-in fallback string. -/
def secret_key (env : Option String) : String :=
  env.getD "anvesh-ai-video-generator-secret"

/-- Python truthiness of an optional string: None and the empty string
are falsy. -/
def truthy_str : Option String → Bool
  | none => false
  | some s => !(s == "")

/-- The startup warning about a missing admin password is printed
exactly when ADMIN_PASSWORD is not set (falsy). -/
def startup_warning (admin_password : Option String) : Bool :=
  !(truthy_str admin_password)

/-- Result of a POST to the admin login route: HTTP status, the success
flag of the JSON body, and the session admin flag after the request. -/
structure LoginResult where
  status : Nat
  ok : Bool
  admin_logged_in : Bool
deriving DecidableEq, Repr

/-- The POST branch of admin_login. ADMIN_PASSWORD unset (falsy) gives
a 500 response; a truthy body password equal to ADMIN_PASSWORD sets the
session flag and succeeds; anything else gives 401. -/
def admin_login_post (admin_password : Option String)
    (body_password : Option String) (sess_admin : Bool) : LoginResult :=
  if truthy_str admin_password = false then
    ⟨500, false, sess_admin⟩
  else
    match body_password with
    | some p =>
        if truthy_str (some p) = true ∧ some p = admin_password then
          ⟨200, true, true⟩
        else ⟨401, false, sess_admin⟩
    | none => ⟨401, false, sess_admin⟩

/-- The generate route replaces a requested frame count below 10 or
above 20 by the default 15 and keeps it otherwise. -/
def clamp_num_frames (n : Int) : Int :=
  if n < 10 ∨ 20 < n then 15 else n

/-- One stored video record, with the fields written by the generate
route. -/
structure VideoRecord where
  id : String
  filename : String
  prompt : String
  num_frames : Nat
  created_at : String
  file_size : Nat
deriving DecidableEq, Repr

/-- The persisted metadata document: ordered video records, most recent
first, and the lifetime generation counter. -/
structure Metadata where
  videos : List VideoRecord
  total_generated : Nat
deriving DecidableEq, Repr

/-- load_metadata returns the backing document when it exists and the
empty default otherwise. -/
def load_metadata : Option Metadata → Metadata
  | some m => m
  | none => ⟨[], 0⟩

/-- The metadata update of a successful generation: the new record is
inserted at index 0 and total_generated is incremented. -/
def record_generation (m : Metadata) (info : VideoRecord) : Metadata :=
  ⟨info :: m.videos, m.total_generated + 1⟩

/-- Result of the delete route: HTTP status, success flag, and the
metadata document and videos directory after the request. -/
structure DeleteResult where
  status : Nat
  ok : Bool
  metadata : Metadata
  files : List String
deriving DecidableEq, Repr

/-- The delete_video route. An unauthorized session gives 401. Otherwise
the first record whose id matches is located; when found, its backing
file is removed from the videos directory (file names in a directory are
distinct, so removal is a filter), every record with the matching id is
filtered out, and the document is saved; when absent, 404 with nothing
changed. -/
def delete_video (admin_logged_in : Bool) (m : Metadata)
    (files : List String) (video_id : String) : DeleteResult :=
  if admin_logged_in = false then ⟨401, false, m, files⟩
  else
    match m.videos.find? (fun v => v.id == video_id) with
    | some video_to_delete =>
        let files' := files.filter (fun f => !(f == video_to_delete.filename))
        let m' : Metadata :=
          ⟨m.videos.filter (fun v => !(v.id == video_id)), m.total_generated⟩
        ⟨200, true, m', files'⟩
    | none => ⟨404, false, m, files⟩

/-- The natural clip duration: frame count divided by frames per
second, in exact rational arithmetic. -/
def natural_duration (n fps : Nat) : ℚ :=
  (n : ℚ) / (fps : ℚ)

/-- The loop count used when the duration is short: the Python
expression int(4 / duration) + 1; for a positive duration the int
truncation is the floor. -/
def loop_count (d : ℚ) : Nat :=
  (⌊(4 : ℚ) / d⌋).toNat + 1

/-- Duration of a clip concatenated with itself k times in total. -/
def clip_loop (d : ℚ) (k : Nat) : ℚ :=
  (k : ℚ) * d

/-- Duration of subclipped from time 0 to time t. -/
def clip_subclip (d t : ℚ) : ℚ :=
  min d t

/-- The final duration computed by create_video: below 4 seconds the
clip is looped loop_count times and subclipped to 4; above 6 seconds it
is subclipped to 6; otherwise it is unchanged. -/
def create_video_duration (n fps : Nat) : ℚ :=
  if natural_duration n fps < 4 then
    clip_subclip
      (clip_loop (natural_duration n fps) (loop_count (natural_duration n fps))) 4
  else if 6 < natural_duration n fps then
    clip_subclip (natural_duration n fps) 6
  else natural_duration n fps

/-- Outcome of one HTTP attempt: status 200 with a response body,
status 429, another non-200 status, or a raised network exception. -/
inductive FetchOutcome where
  | ok (data : String)
  | rateLimited
  | httpError (code : Nat)
  | netError
deriving DecidableEq, Repr

/-- Whether an attempt outcome is an HTTP 200. -/
def FetchOutcome.isOk : FetchOutcome → Bool
  | .ok _ => true
  | _ => false

/-- Zero-padding of a frame index to width 3, as the Python format
specifier 03d renders a natural number. -/
def pad3 (i : Nat) : String :=
  if i < 10 then "00" ++ toString i
  else if i < 100 then "0" ++ toString i
  else toString i

/-- The file path of the frame with the given index inside the frames
directory. -/
def frame_path (i : Nat) : String :=
  "frames/frame_" ++ pad3 i ++ ".png"

/-- Result of the fetcher for one frame: the returned frame path if any
attempt succeeded, and the trace of sleep durations. -/
structure FetchResult where
  result : Option String
  waits : List Nat
deriving DecidableEq, Repr

/-- The retry loop of generate_image_async, starting at the given
attempt number with the given number of remaining attempts. A 200
persists the body and returns the frame path; a 429 sleeps
(attempt + 1) * 5 seconds; another status sleeps 3 seconds; an
exception sleeps 3 seconds unless this is the final attempt. -/
def generate_image_async_go (outcomes : Nat → FetchOutcome) (index : Nat) :
    Nat → Nat → FetchResult
  | _, 0 => ⟨none, []⟩
  | attempt, remaining + 1 =>
    match outcomes attempt with
    | .ok _ => ⟨some (frame_path index), []⟩
    | .rateLimited =>
        let r := generate_image_async_go outcomes index (attempt + 1) remaining
        ⟨r.result, (attempt + 1) * 5 :: r.waits⟩
    | .httpError _ =>
        let r := generate_image_async_go outcomes index (attempt + 1) remaining
        ⟨r.result, 3 :: r.waits⟩
    | .netError =>
        let r := generate_image_async_go outcomes index (attempt + 1) remaining
        if remaining = 0 then ⟨r.result, r.waits⟩ else ⟨r.result, 3 :: r.waits⟩

/-- generate_image_async: run the retry loop from attempt 0 with
max_retries attempts available. -/
def generate_image_async (outcomes : Nat → FetchOutcome)
    (index max_retries : Nat) : FetchResult :=
  generate_image_async_go outcomes index 0 max_retries

/-- Number of consecutive failing attempts starting at the given
attempt number, capped at the given remaining count: the number of
attempts that are followed by a further attempt or by exhaustion. -/
def run_len (outcomes : Nat → FetchOutcome) : Nat → Nat → Nat
  | _, 0 => 0
  | a, r + 1 => if (outcomes a).isOk then 0 else run_len outcomes (a + 1) r + 1

/-- The backoff prescribed by the specification for the failing attempt
with 0-based number k (1-based number k + 1): (k + 1) * 5 seconds after
HTTP 429, 3 seconds after any other non-200 status, 3 seconds after a
network error except on the final attempt, nothing after a success. -/
def spec_wait_rule (k : Nat) (not_final : Bool) : FetchOutcome → Option Nat
  | .ok _ => none
  | .rateLimited => some ((k + 1) * 5)
  | .httpError _ => some 3
  | .netError => if not_final then some 3 else none

/-- The full wait trace prescribed by the specification: one entry per
failing attempt before the first success, following spec_wait_rule. -/
def spec_wait_trace (outcomes : Nat → FetchOutcome) (max_retries : Nat) :
    List Nat :=
  (List.range (run_len outcomes 0 max_retries)).filterMap
    (fun k => spec_wait_rule k (decide (k + 1 < max_retries)) (outcomes k))

/-- A concrete outcome oracle: 429 on attempt 0, HTTP 500 on attempt 1,
a network error on attempt 2, success from attempt 3 on. -/
def c6_outcomes : Nat → FetchOutcome
  | 0 => .rateLimited
  | 1 => .httpError 500
  | 2 => .netError
  | _ => .ok "img"

/-- The same oracle disturbed from attempt 5 on. -/
def c6_outcomes' (k : Nat) : FetchOutcome :=
  if k < 5 then c6_outcomes k else .netError

/-- generate_frames: the fetcher is driven sequentially over the frame
indices 0 to num_frames - 1 (the outcome oracle maps a frame index and
an attempt number to an outcome), every result is appended to
frame_paths, and the frames that returned None are filtered out at the
end. -/
def generate_frames (outcomes : Nat → Nat → FetchOutcome)
    (num_frames : Nat) : List String :=
  let frame_paths :=
    (List.range num_frames).map
      (fun i => (generate_image_async (outcomes i) i 5).result)
  frame_paths.filterMap id

/-- The successful frames of a run: the frame indices whose fetch
succeeded, in increasing order. -/
def successful_indices (outcomes : Nat → Nat → FetchOutcome)
    (num_frames : Nat) : List Nat :=
  (List.range num_frames).filter
    (fun i => (generate_image_async (outcomes i) i 5).result.isSome)

/-- The shared application state the routes act on: the files in the
transient frames directory, the files in the videos directory, and the
metadata document. -/
structure AppState where
  frames_dir : List String
  videos_dir : List String
  metadata : Metadata
deriving DecidableEq, Repr

/-- The environment of one generation request: the HTTP outcome oracle
(frame index and attempt number to outcome), whether video encoding
succeeds or raises, the text of a raised exception, and the timestamp,
random id suffix, creation time and file size observed during the
request. -/
structure GenEnv where
  outcomes : Nat → Nat → FetchOutcome
  encode_ok : Bool
  encode_error : String
  timestamp : Nat
  rand : Nat
  created_at : String
  file_size : Nat

/-- Response and final state of the generate route: HTTP status, the
error field of the JSON body if any, the frames_generated field if any,
and the application state after the request. -/
structure GenResult where
  status : Nat
  error : Option String
  frames_generated : Option Nat
  state : AppState
deriving DecidableEq, Repr

/-- cleanup_frames deletes every file in the frames directory. -/
def cleanup_frames (st : AppState) : AppState :=
  ⟨[], st.videos_dir, st.metadata⟩

/-- The Python str.strip() applied to the prompt: leading and trailing
whitespace removed. -/
def py_strip (s : String) : String :=
  ⟨((s.data.dropWhile Char.isWhitespace).reverse.dropWhile Char.isWhitespace).reverse⟩

/-- The generate_video route. A blank prompt gives 400. Otherwise the
frames directory is cleaned, frames are generated sequentially (each
success having written its frame file), and an empty result gives 500.
Otherwise the video is assembled: on success the output file is written
to the videos directory, the frames are cleaned up, and the metadata
document gains the new record in front with total_generated
incremented; when assembly raises, the handler cleans the frames and
returns 500 with the exception text. -/
def generate_video (env : GenEnv) (prompt_raw : String)
    (num_frames_req : Int) (st : AppState) : GenResult :=
  let prompt := py_strip prompt_raw
  if prompt = "" then ⟨400, some "Prompt is required", none, st⟩
  else
    let num_frames := (clamp_num_frames num_frames_req).toNat
    let st1 := cleanup_frames st
    let frame_paths := generate_frames env.outcomes num_frames
    let st2 : AppState := ⟨frame_paths, st1.videos_dir, st1.metadata⟩
    if frame_paths = [] then
      ⟨500, some "Failed to generate frames", none, st2⟩
    else
      let output_filename := "anvesh_video_" ++ toString env.timestamp ++ ".mp4"
      if env.encode_ok then
        let st3 : AppState :=
          ⟨st2.frames_dir, output_filename :: st2.videos_dir, st2.metadata⟩
        let st4 := cleanup_frames st3
        let video_id :=
          "vid_" ++ toString env.timestamp ++ "_" ++ toString env.rand
        let video_info : VideoRecord :=
          ⟨video_id, output_filename, prompt, frame_paths.length,
            env.created_at, env.file_size⟩
        let st5 : AppState :=
          ⟨st4.frames_dir, st4.videos_dir,
            record_generation st4.metadata video_info⟩
        ⟨200, none, some frame_paths.length, st5⟩
      else ⟨500, some env.encode_error, none, cleanup_frames st2⟩

/-- A concrete outcome oracle for the orchestrator: frame 0 fails every
attempt with a network error, every other frame succeeds at once. -/
def c5_outcomes : Nat → Nat → FetchOutcome :=
  fun i _ => if i = 0 then .netError else .ok "img"

/-- A request environment in which every fetch attempt fails. -/
def c7_env : GenEnv :=
  ⟨fun _ _ => .netError, true, "boom", 9, 1000, "2025-01-01T00:00:00", 0⟩

/-- The empty initial application state. -/
def st_empty : AppState :=
  ⟨[], [], ⟨[], 0⟩⟩

/-- An outcome oracle in which every fetch succeeds at the first
attempt. -/
def all_ok_outcomes : Nat → Nat → FetchOutcome :=
  fun _ _ => .ok "img"

/-- A fully successful request environment with a given timestamp. -/
def c2_env (ts : Nat) : GenEnv :=
  ⟨all_ok_outcomes, true, "", ts, 1000, "2025-01-01T00:00:00", 4096⟩

/-- State after the first of three successful generations. -/
def c2_state1 : AppState :=
  (generate_video (c2_env 1) "a calm lake at dawn" 15 st_empty).state

/-- State after the second successful generation. -/
def c2_state2 : AppState :=
  (generate_video (c2_env 2) "a calm lake at dawn" 15 c2_state1).state

/-- State after the third successful generation. -/
def c2_state3 : AppState :=
  (generate_video (c2_env 3) "a calm lake at dawn" 15 c2_state2).state

/-- Result of deleting the first generated video. -/
def c2_after_delete1 : DeleteResult :=
  delete_video true c2_state3.metadata c2_state3.videos_dir "vid_1_1000"

/-- Result of then deleting the second generated video. -/
def c2_final : DeleteResult :=
  delete_video true c2_after_delete1.metadata c2_after_delete1.files "vid_2_1000"

/-- A record that occurs twice in a metadata document (two generations
in the same second with the same random suffix produce equal ids). -/
def dup_record : VideoRecord :=
  ⟨"vid_9_1000", "anvesh_video_9.mp4", "p", 15, "2025-01-01T00:00:00", 10⟩

/-- A metadata document holding the duplicate record twice. -/
def dup_metadata : Metadata :=
  ⟨[dup_record, dup_record], 2⟩

/-- A two-record metadata document with distinct ids. -/
def c3_metadata : Metadata :=
  ⟨[⟨"vid_1_1000", "anvesh_video_1.mp4", "p", 15, "t", 10⟩,
    ⟨"vid_2_1000", "anvesh_video_2.mp4", "q", 12, "t", 20⟩], 2⟩

/-! ## Lemmas and claim theorems -/

/-- Claim C10: when the SESSION_SECRET environment variable is unset the
application signs sessions with the fixed built-in fallback string, and
the externally supplied secret is used exactly when the variable is
present. -/
theorem secret_key_fallback_c10 :
    secret_key none = "anvesh-ai-video-generator-secret" ∧
    ∀ s : String, secret_key (some s) = s := by
  refine ⟨rfl, fun s => rfl⟩

/-- Claim C8: with the admin password unset, every POST to the login
route returns a failure response with status 500, leaves the session
admin flag untouched, and the startup warning is emitted; the handler is
a total function, so the process does not crash. -/
theorem admin_login_fails_closed_c8 :
    (∀ body sess, admin_login_post none body sess = ⟨500, false, sess⟩) ∧
    startup_warning none = true := by
  constructor
  · intro body sess
    simp [admin_login_post, truthy_str]
  · rfl

/-- Claim C4: a requested frame count strictly below 10 or strictly
above 20 is coerced to the default 15, a value within the range 10 to 20
is used unchanged, and the clamped value always lies in that range. -/
theorem clamp_num_frames_c4 :
    (∀ n : Int, (n < 10 ∨ 20 < n) → clamp_num_frames n = 15) ∧
    (∀ n : Int, 10 ≤ n → n ≤ 20 → clamp_num_frames n = n) ∧
    (∀ n : Int, 10 ≤ clamp_num_frames n ∧ clamp_num_frames n ≤ 20) := by
  refine ⟨fun n h => if_pos h, fun n h1 h2 => ?_, fun n => ?_⟩
  · have : ¬ (n < 10 ∨ 20 < n) := by omega
    simp [clamp_num_frames, this]
  · unfold clamp_num_frames
    split <;> omega

/-- Witness for C4 at concrete inputs: 9 and 21 are coerced to 15 and
12 is kept. -/
theorem clamp_num_frames_c4_witness :
    clamp_num_frames 9 = 15 ∧ clamp_num_frames 21 = 15 ∧
    clamp_num_frames 12 = 12 :=
  ⟨clamp_num_frames_c4.1 9 (by decide),
   clamp_num_frames_c4.1 21 (by decide),
   clamp_num_frames_c4.2.1 12 (by decide) (by decide)⟩

/-- Positivity of the natural duration of a non-empty frame list. -/
theorem natural_duration_pos (n fps : Nat) (hn : 1 ≤ n) (hf : 1 ≤ fps) :
    0 < natural_duration n fps := by
  unfold natural_duration
  exact div_pos (by exact_mod_cast hn) (by exact_mod_cast hf)

/-- The short branch of the duration normalization: below 4 seconds the
looped clip strictly exceeds 4 seconds and the final duration is
exactly 4. -/
theorem create_video_duration_short (n fps : Nat) (hn : 1 ≤ n) (hf : 1 ≤ fps)
    (h4 : natural_duration n fps < 4) :
    4 < clip_loop (natural_duration n fps) (loop_count (natural_duration n fps)) ∧
    create_video_duration n fps = 4 := by
  have hd : 0 < natural_duration n fps := natural_duration_pos n fps hn hf
  have hfloor : (0 : ℤ) ≤ ⌊(4 : ℚ) / natural_duration n fps⌋ :=
    Int.floor_nonneg.mpr (le_of_lt (div_pos (by norm_num) hd))
  have hcast : ((⌊(4 : ℚ) / natural_duration n fps⌋.toNat : ℚ)) =
      (⌊(4 : ℚ) / natural_duration n fps⌋ : ℚ) := by
    exact_mod_cast Int.toNat_of_nonneg hfloor
  have hk : ((loop_count (natural_duration n fps) : ℚ)) =
      (⌊(4 : ℚ) / natural_duration n fps⌋ : ℚ) + 1 := by
    unfold loop_count
    rw [Nat.cast_add, Nat.cast_one, hcast]
  have hlt : (4 : ℚ) <
      clip_loop (natural_duration n fps) (loop_count (natural_duration n fps)) := by
    unfold clip_loop
    rw [hk]
    have h1 : (4 : ℚ) / natural_duration n fps <
        (⌊(4 : ℚ) / natural_duration n fps⌋ : ℚ) + 1 := Int.lt_floor_add_one _
    have h2 := mul_lt_mul_of_pos_right h1 hd
    rwa [div_mul_cancel₀ _ (ne_of_gt hd)] at h2
  refine ⟨hlt, ?_⟩
  unfold create_video_duration clip_subclip
  rw [if_pos h4]
  exact min_eq_right (le_of_lt hlt)

/-- Claim C1: for a non-empty frame list, when the natural duration is
below 4 seconds the looped clip strictly exceeds 4 seconds and the final
duration is exactly 4; when it exceeds 6 seconds the final duration is
exactly the first 6 seconds; otherwise it is unchanged. -/
theorem create_video_duration_c1 (n fps : Nat) (hn : 1 ≤ n) (hf : 1 ≤ fps) :
    (natural_duration n fps < 4 →
       4 < clip_loop (natural_duration n fps) (loop_count (natural_duration n fps)) ∧
       create_video_duration n fps = 4) ∧
    (6 < natural_duration n fps → create_video_duration n fps = 6) ∧
    (4 ≤ natural_duration n fps → natural_duration n fps ≤ 6 →
       create_video_duration n fps = natural_duration n fps) := by
  refine ⟨create_video_duration_short n fps hn hf, ?_, ?_⟩
  · intro h6
    have h4' : ¬ (natural_duration n fps < 4) := by linarith
    unfold create_video_duration clip_subclip
    rw [if_neg h4', if_pos h6]
    exact min_eq_right (le_of_lt h6)
  · intro ha hb
    have h4' : ¬ (natural_duration n fps < 4) := not_lt.mpr ha
    have h6' : ¬ (6 < natural_duration n fps) := not_lt.mpr hb
    unfold create_video_duration
    rw [if_neg h4', if_neg h6']

/-- Witness for C1 at 10 frames and 24 fps: the natural duration is
below 4 seconds, the looped clip exceeds 4 seconds and the final
duration is exactly 4. -/
theorem create_video_duration_c1_witness :
    4 < clip_loop (natural_duration 10 24) (loop_count (natural_duration 10 24)) ∧
    create_video_duration 10 24 = 4 :=
  (create_video_duration_c1 10 24 (by decide) (by decide)).1
    (by norm_num [natural_duration])

/-- The retry loop looks only at the outcomes of the attempts it may
make. -/
theorem generate_image_async_go_congr (index : Nat) :
    ∀ (r a : Nat) (o o' : Nat → FetchOutcome),
      (∀ j, j < r → o (a + j) = o' (a + j)) →
      generate_image_async_go o index a r = generate_image_async_go o' index a r := by
  intro r
  induction r with
  | zero => intro a o o' _; rfl
  | succ r ih =>
    intro a o o' h
    have h0 : o a = o' a := by simpa using h 0 (Nat.succ_pos r)
    have hrest : ∀ j, j < r → o (a + 1 + j) = o' (a + 1 + j) := by
      intro j hj
      have := h (j + 1) (by omega)
      have e : a + (j + 1) = a + 1 + j := by omega
      rwa [e] at this
    simp only [generate_image_async_go]
    rw [← h0]
    cases o a with
    | ok d => rfl
    | rateLimited => rw [ih (a + 1) o o' hrest]
    | httpError c => rw [ih (a + 1) o o' hrest]
    | netError => rw [ih (a + 1) o o' hrest]

/-- The retry loop reports failure exactly when every attempt in its
window fails. -/
theorem generate_image_async_go_none (index : Nat) :
    ∀ (r a : Nat) (o : Nat → FetchOutcome),
      (generate_image_async_go o index a r).result = none ↔
        ∀ j, j < r → (o (a + j)).isOk = false := by
  intro r
  induction r with
  | zero =>
    intro a o
    exact ⟨fun _ j hj => absurd hj (Nat.not_lt_zero j), fun _ => rfl⟩
  | succ r ih =>
    intro a o
    simp only [generate_image_async_go]
    cases ho : o a with
    | ok d =>
      simp only [FetchOutcome.isOk]
      constructor
      · intro hcontra; cases hcontra
      · intro hall
        have := hall 0 (Nat.succ_pos r)
        rw [Nat.add_zero, ho] at this
        cases this
    | rateLimited =>
      rw [show ∀ x : FetchResult, (⟨x.result, (a + 1) * 5 :: x.waits⟩ : FetchResult).result = x.result from fun _ => rfl]
      rw [ih (a + 1) o]
      constructor
      · intro hall j hj
        match j, hj with
        | 0, _ => rw [Nat.add_zero, ho]; rfl
        | j + 1, hj =>
          have := hall j (by omega)
          have e : a + 1 + j = a + (j + 1) := by omega
          rwa [e] at this
      · intro hall j hj
        have := hall (j + 1) (by omega)
        have e : a + (j + 1) = a + 1 + j := by omega
        rwa [e] at this
    | httpError c =>
      rw [show ∀ x : FetchResult, (⟨x.result, 3 :: x.waits⟩ : FetchResult).result = x.result from fun _ => rfl]
      rw [ih (a + 1) o]
      constructor
      · intro hall j hj
        match j, hj with
        | 0, _ => rw [Nat.add_zero, ho]; rfl
        | j + 1, hj =>
          have := hall j (by omega)
          have e : a + 1 + j = a + (j + 1) := by omega
          rwa [e] at this
      · intro hall j hj
        have := hall (j + 1) (by omega)
        have e : a + (j + 1) = a + 1 + j := by omega
        rwa [e] at this
    | netError =>
      have hres : (if r = 0 then
            (⟨(generate_image_async_go o index (a + 1) r).result,
              (generate_image_async_go o index (a + 1) r).waits⟩ : FetchResult)
          else
            ⟨(generate_image_async_go o index (a + 1) r).result,
              3 :: (generate_image_async_go o index (a + 1) r).waits⟩).result =
          (generate_image_async_go o index (a + 1) r).result := by
        split <;> rfl
      rw [hres, ih (a + 1) o]
      constructor
      · intro hall j hj
        match j, hj with
        | 0, _ => rw [Nat.add_zero, ho]; rfl
        | j + 1, hj =>
          have := hall j (by omega)
          have e : a + 1 + j = a + (j + 1) := by omega
          rwa [e] at this
      · intro hall j hj
        have := hall (j + 1) (by omega)
        have e : a + (j + 1) = a + 1 + j := by omega
        rwa [e] at this

/-- A successful fetch returns exactly the frame path of its index. -/
theorem generate_image_async_go_some (index : Nat) :
    ∀ (r a : Nat) (o : Nat → FetchOutcome) (p : String),
      (generate_image_async_go o index a r).result = some p →
      p = frame_path index := by
  intro r
  induction r with
  | zero => intro a o p h; cases h
  | succ r ih =>
    intro a o p h
    rw [generate_image_async_go] at h
    cases ho : o a with
    | ok d =>
      rw [ho] at h
      cases h
      rfl
    | rateLimited =>
      rw [ho] at h
      exact ih (a + 1) o p h
    | httpError c =>
      rw [ho] at h
      exact ih (a + 1) o p h
    | netError =>
      rw [ho] at h
      have : (generate_image_async_go o index (a + 1) r).result = some p := by
        by_cases hr : r = 0
        · rw [if_pos hr] at h; exact h
        · rw [if_neg hr] at h; exact h
      exact ih (a + 1) o p this

/-- Shift lemma for the specified wait trace: mapping the successor
into the attempt window moves the window one attempt to the right. -/
theorem spec_wait_trace_shift (o : Nat → FetchOutcome) (a r m : Nat) :
    (((List.range m).map Nat.succ).filterMap
        (fun j => spec_wait_rule (a + j) (decide (j + 1 < r + 1)) (o (a + j)))) =
      ((List.range m).filterMap
        (fun j => spec_wait_rule (a + 1 + j) (decide (j + 1 < r)) (o (a + 1 + j)))) := by
  rw [List.filterMap_map]
  have hfun : ((fun j => spec_wait_rule (a + j) (decide (j + 1 < r + 1)) (o (a + j))) ∘ Nat.succ) =
      fun j => spec_wait_rule (a + 1 + j) (decide (j + 1 < r)) (o (a + 1 + j)) := by
    funext j
    have e : a + Nat.succ j = a + 1 + j := by omega
    have ed : (decide (Nat.succ j + 1 < r + 1)) = (decide (j + 1 < r)) :=
      decide_eq_decide.mpr (by omega)
    simp only [Function.comp, e, ed]
  rw [hfun]

/-- The wait trace produced by the retry loop is exactly the trace the
specification prescribes over its window. -/
theorem generate_image_async_go_waits (index : Nat) :
    ∀ (r a : Nat) (o : Nat → FetchOutcome),
      (generate_image_async_go o index a r).waits =
        (List.range (run_len o a r)).filterMap
          (fun j => spec_wait_rule (a + j) (decide (j + 1 < r)) (o (a + j))) := by
  intro r
  induction r with
  | zero => intro a o; rfl
  | succ r ih =>
    intro a o
    cases ho : o a with
    | ok d =>
      have hL : (generate_image_async_go o index a (r + 1)).waits = [] := by
        rw [generate_image_async_go, ho]
      have hR : run_len o a (r + 1) = 0 := by
        rw [run_len, ho]
        rfl
      rw [hL, hR]
      rfl
    | rateLimited =>
      have hL : (generate_image_async_go o index a (r + 1)).waits =
          (a + 1) * 5 :: (generate_image_async_go o index (a + 1) r).waits := by
        rw [generate_image_async_go, ho]
      have hR : run_len o a (r + 1) = run_len o (a + 1) r + 1 := by
        rw [run_len, ho]
        rfl
      have hhead :
          (fun j => spec_wait_rule (a + j) (decide (j + 1 < r + 1)) (o (a + j))) 0 =
            some ((a + 1) * 5) := by
        show spec_wait_rule (a + 0) (decide (0 + 1 < r + 1)) (o (a + 0)) = _
        rw [Nat.add_zero, ho]
        rfl
      have hcons := @List.filterMap_cons_some Nat Nat
        (fun j => spec_wait_rule (a + j) (decide (j + 1 < r + 1)) (o (a + j))) 0
        (List.map Nat.succ (List.range (run_len o (a + 1) r))) ((a + 1) * 5) hhead
      rw [hL, hR, List.range_succ_eq_map, hcons,
        spec_wait_trace_shift o a r _, ih (a + 1) o]
    | httpError c =>
      have hL : (generate_image_async_go o index a (r + 1)).waits =
          3 :: (generate_image_async_go o index (a + 1) r).waits := by
        rw [generate_image_async_go, ho]
      have hR : run_len o a (r + 1) = run_len o (a + 1) r + 1 := by
        rw [run_len, ho]
        rfl
      have hhead :
          (fun j => spec_wait_rule (a + j) (decide (j + 1 < r + 1)) (o (a + j))) 0 =
            some 3 := by
        show spec_wait_rule (a + 0) (decide (0 + 1 < r + 1)) (o (a + 0)) = _
        rw [Nat.add_zero, ho]
        rfl
      have hcons := @List.filterMap_cons_some Nat Nat
        (fun j => spec_wait_rule (a + j) (decide (j + 1 < r + 1)) (o (a + j))) 0
        (List.map Nat.succ (List.range (run_len o (a + 1) r))) 3 hhead
      rw [hL, hR, List.range_succ_eq_map, hcons,
        spec_wait_trace_shift o a r _, ih (a + 1) o]
    | netError =>
      by_cases hr : r = 0
      · subst hr
        have hL : (generate_image_async_go o index a 1).waits = [] := by
          rw [generate_image_async_go, ho]
          rfl
        have hR : run_len o a 1 = 1 := by
          rw [run_len, ho]
          rfl
        have hnone :
            (fun j => spec_wait_rule (a + j) (decide (j + 1 < 0 + 1)) (o (a + j))) 0 =
              none := by
          show spec_wait_rule (a + 0) (decide (0 + 1 < 0 + 1)) (o (a + 0)) = _
          rw [Nat.add_zero, ho]
          rfl
        have hcons := @List.filterMap_cons_none Nat Nat
          (fun j => spec_wait_rule (a + j) (decide (j + 1 < 0 + 1)) (o (a + j))) 0
          ([] : List Nat) hnone
        rw [hL, hR, show List.range 1 = [0] from rfl, hcons, List.filterMap_nil]
      · have hL : (generate_image_async_go o index a (r + 1)).waits =
            3 :: (generate_image_async_go o index (a + 1) r).waits := by
          rw [generate_image_async_go, ho]
          simp only [if_neg hr]
        have hR : run_len o a (r + 1) = run_len o (a + 1) r + 1 := by
          rw [run_len, ho]
          rfl
        have hhead :
            (fun j => spec_wait_rule (a + j) (decide (j + 1 < r + 1)) (o (a + j))) 0 =
              some 3 := by
          show spec_wait_rule (a + 0) (decide (0 + 1 < r + 1)) (o (a + 0)) = _
          rw [Nat.add_zero, ho]
          have hd : (decide (0 + 1 < r + 1)) = true := decide_eq_true (by omega)
          rw [hd]
          rfl
        have hcons := @List.filterMap_cons_some Nat Nat
          (fun j => spec_wait_rule (a + j) (decide (j + 1 < r + 1)) (o (a + j))) 0
          (List.map Nat.succ (List.range (run_len o (a + 1) r))) 3 hhead
        rw [hL, hR, List.range_succ_eq_map, hcons,
          spec_wait_trace_shift o a r _, ih (a + 1) o]

/-- Claim C6: generate_image_async with its default of 5 retries makes
at most 5 attempts (its behaviour depends only on the outcomes of
attempts 0 to 4); it reports failure, returning none for its frame
only, exactly when all 5 attempts fail; its sleep trace follows the
specified schedule: (k + 1) * 5 seconds after a 429 on 0-based attempt
k, 3 seconds after another non-200 status, and 3 seconds after a
network error except on the final attempt; and a success returns the
frame path of its index. -/
theorem generate_image_async_c6 (outcomes : Nat → FetchOutcome) (index : Nat) :
    (∀ outcomes' : Nat → FetchOutcome,
       (∀ k, k < 5 → outcomes k = outcomes' k) →
       generate_image_async outcomes index 5 = generate_image_async outcomes' index 5) ∧
    ((generate_image_async outcomes index 5).result = none ↔
       ∀ k, k < 5 → (outcomes k).isOk = false) ∧
    ((generate_image_async outcomes index 5).waits = spec_wait_trace outcomes 5) ∧
    (∀ p, (generate_image_async outcomes index 5).result = some p →
       p = frame_path index) := by
  refine ⟨?_, ?_, ?_, ?_⟩
  · intro outcomes' h
    exact generate_image_async_go_congr index 5 0 outcomes outcomes'
      (fun j hj => by simpa using h j hj)
  · have := generate_image_async_go_none index 5 0 outcomes
    simpa [generate_image_async] using this
  · have := generate_image_async_go_waits index 5 0 outcomes
    simpa [generate_image_async, spec_wait_trace] using this
  · intro p hp
    exact generate_image_async_go_some index 5 0 outcomes p hp

/-- Witness for C6: on the concrete oracle the fetch result and trace
agree with the disturbed oracle, and the trace is 5 then 3 then 3
seconds before the success on attempt 3. -/
theorem generate_image_async_c6_witness :
    generate_image_async c6_outcomes 7 5 = generate_image_async c6_outcomes' 7 5 ∧
    (generate_image_async c6_outcomes 7 5).waits = spec_wait_trace c6_outcomes 5 ∧
    (generate_image_async c6_outcomes 7 5).waits = [5, 3, 3] ∧
    (generate_image_async c6_outcomes 7 5).result = some (frame_path 7) :=
  ⟨(generate_image_async_c6 c6_outcomes 7).1 c6_outcomes' (by decide),
   (generate_image_async_c6 c6_outcomes 7).2.2.1,
   by decide, by decide⟩

/-- generate_frames returns exactly the frame paths of the successful
indices, in index order. -/
theorem generate_frames_eq_map (outcomes : Nat → Nat → FetchOutcome)
    (num_frames : Nat) :
    generate_frames outcomes num_frames =
      (successful_indices outcomes num_frames).map frame_path := by
  unfold generate_frames successful_indices
  rw [List.filterMap_map]
  rw [← List.filterMap_eq_map frame_path, List.filterMap_filter]
  apply List.filterMap_congr
  intro i _
  cases hi : (generate_image_async (outcomes i) i 5).result with
  | none => simp [Function.comp, hi]
  | some p =>
    have hp : p = frame_path i :=
      generate_image_async_go_some i 5 0 (outcomes i) p hi
    simp [Function.comp, hi, hp]

/-- The number of successful frames never exceeds the requested count. -/
theorem generate_frames_length_le (outcomes : Nat → Nat → FetchOutcome)
    (n : Nat) : (generate_frames outcomes n).length ≤ n := by
  rw [generate_frames_eq_map, List.length_map]
  calc (successful_indices outcomes n).length
      ≤ (List.range n).length := List.length_filter_le _ _
    _ = n := List.length_range n

/-- No frame at all is produced exactly when every attempt of every
frame fails. -/
theorem generate_frames_empty_iff (outcomes : Nat → Nat → FetchOutcome)
    (n : Nat) :
    generate_frames outcomes n = [] ↔
      ∀ i, i < n → ∀ k, k < 5 → ((outcomes i) k).isOk = false := by
  rw [generate_frames_eq_map, List.map_eq_nil_iff]
  unfold successful_indices
  rw [List.filter_eq_nil_iff]
  constructor
  · intro hempty i hi k hk
    have hmem : i ∈ List.range n := List.mem_range.mpr hi
    have hfil := hempty i hmem
    have hnone : (generate_image_async (outcomes i) i 5).result = none := by
      cases hres : (generate_image_async (outcomes i) i 5).result with
      | none => rfl
      | some p => exact absurd (by rw [hres]; rfl) hfil
    have := (generate_image_async_go_none i 5 0 (outcomes i)).mp hnone k hk
    simpa using this
  · intro hall i hmem
    have hi := List.mem_range.mp hmem
    have hnone : (generate_image_async (outcomes i) i 5).result = none :=
      (generate_image_async_go_none i 5 0 (outcomes i)).mpr
        (fun k hk => by simpa using hall i hi k hk)
    rw [hnone]
    simp

/-- Evaluation of the route on a blank prompt. -/
theorem generate_video_blank (env : GenEnv) (prompt_raw : String)
    (req : Int) (st : AppState) (hp : py_strip prompt_raw = "") :
    generate_video env prompt_raw req st =
      ⟨400, some "Prompt is required", none, st⟩ := by
  simp only [generate_video]
  rw [if_pos hp]

/-- Evaluation of the route when no frame at all is generated. -/
theorem generate_video_no_frames (env : GenEnv) (prompt_raw : String)
    (req : Int) (st : AppState) (hp : ¬ py_strip prompt_raw = "")
    (hempty : generate_frames env.outcomes (clamp_num_frames req).toNat = []) :
    generate_video env prompt_raw req st =
      ⟨500, some "Failed to generate frames", none,
        ⟨[], st.videos_dir, st.metadata⟩⟩ := by
  simp only [generate_video, cleanup_frames]
  rw [if_neg hp, if_pos hempty, hempty]

/-- Evaluation of the route when frames exist but encoding raises. -/
theorem generate_video_encode_fail (env : GenEnv) (prompt_raw : String)
    (req : Int) (st : AppState) (hp : ¬ py_strip prompt_raw = "")
    (hne : ¬ generate_frames env.outcomes (clamp_num_frames req).toNat = [])
    (henc : env.encode_ok = false) :
    generate_video env prompt_raw req st =
      ⟨500, some env.encode_error, none,
        ⟨[], st.videos_dir, st.metadata⟩⟩ := by
  simp only [generate_video, cleanup_frames]
  rw [if_neg hp, if_neg hne,
    if_neg (show ¬ env.encode_ok = true by rw [henc]; exact Bool.false_ne_true)]

/-- Evaluation of the route on a fully successful request. -/
theorem generate_video_success (env : GenEnv) (prompt_raw : String)
    (req : Int) (st : AppState) (hp : ¬ py_strip prompt_raw = "")
    (hne : ¬ generate_frames env.outcomes (clamp_num_frames req).toNat = [])
    (henc : env.encode_ok = true) :
    generate_video env prompt_raw req st =
      ⟨200, none,
        some (generate_frames env.outcomes (clamp_num_frames req).toNat).length,
        ⟨[], ("anvesh_video_" ++ toString env.timestamp ++ ".mp4") :: st.videos_dir,
          record_generation st.metadata
            ⟨"vid_" ++ toString env.timestamp ++ "_" ++ toString env.rand,
             "anvesh_video_" ++ toString env.timestamp ++ ".mp4",
             py_strip prompt_raw,
             (generate_frames env.outcomes (clamp_num_frames req).toNat).length,
             env.created_at, env.file_size⟩⟩⟩ := by
  simp only [generate_video, cleanup_frames]
  rw [if_neg hp, if_neg hne, if_pos henc]

/-- Claim C5: for a prompt and a frame count within 10 to 20 the
orchestrator returns the successful frame paths in original index
order with the failures omitted, at most as many as requested; the
list is empty exactly when every attempt of every frame failed; and a
request through the route with working encoding fails exactly in that
zero-frames case. -/
theorem generate_frames_c5 (outcomes : Nat → Nat → FetchOutcome) (n : Nat)
    (_h10 : 10 ≤ n) (_h20 : n ≤ 20) :
    generate_frames outcomes n = (successful_indices outcomes n).map frame_path ∧
    (generate_frames outcomes n).length ≤ n ∧
    (generate_frames outcomes n = [] ↔
       ∀ i, i < n → ∀ k, k < 5 → ((outcomes i) k).isOk = false) ∧
    (∀ (env : GenEnv) (prompt_raw : String) (req : Int) (st : AppState),
       py_strip prompt_raw ≠ "" → env.encode_ok = true →
       env.outcomes = outcomes → (clamp_num_frames req).toNat = n →
       ((generate_video env prompt_raw req st).status ≠ 200 ↔
          generate_frames outcomes n = [])) := by
  refine ⟨generate_frames_eq_map outcomes n, generate_frames_length_le outcomes n,
    generate_frames_empty_iff outcomes n, ?_⟩
  intro env prompt_raw req st hp henc ho hc
  by_cases hempty : generate_frames outcomes n = []
  · rw [generate_video_no_frames env prompt_raw req st hp (by rw [ho, hc]; exact hempty)]
    simp [hempty]
  · rw [generate_video_success env prompt_raw req st hp (by rw [ho, hc]; exact hempty) henc]
    simp [hempty]

/-- Witness for C5 at the concrete oracle with 10 frames: at most 10
paths come back and the zero-frames characterization holds there. -/
theorem generate_frames_c5_witness :
    (generate_frames c5_outcomes 10).length ≤ 10 ∧
    (generate_frames c5_outcomes 10 = [] ↔
       ∀ i, i < 10 → ∀ k, k < 5 → ((c5_outcomes i) k).isOk = false) :=
  ⟨(generate_frames_c5 c5_outcomes 10 (by decide) (by decide)).2.1,
   (generate_frames_c5 c5_outcomes 10 (by decide) (by decide)).2.2.1⟩

/-- Claim C9: the clamped frame count is at most 20, so every frame
list reachable from the generate route has length at most 20; for any
such non-empty frame count the natural duration at 24 fps is below 4
seconds, hence create_video takes the loop branch and the final
duration is exactly 4 seconds. -/
theorem endpoint_duration_c9 :
    (∀ req : Int, (clamp_num_frames req).toNat ≤ 20) ∧
    (∀ (outcomes : Nat → Nat → FetchOutcome) (req : Int),
       (generate_frames outcomes (clamp_num_frames req).toNat).length ≤ 20) ∧
    (∀ k : Nat, 1 ≤ k → k ≤ 20 →
       natural_duration k 24 < 4 ∧ create_video_duration k 24 = 4) := by
  have hclamp : ∀ req : Int, (clamp_num_frames req).toNat ≤ 20 := by
    intro req
    unfold clamp_num_frames
    split <;> omega
  refine ⟨hclamp, ?_, ?_⟩
  · intro outcomes req
    exact le_trans (generate_frames_length_le outcomes _) (hclamp req)
  · intro k h1 h20
    have hlt : natural_duration k 24 < 4 := by
      unfold natural_duration
      rw [div_lt_iff₀ (by norm_num)]
      have hk : (k : ℚ) ≤ 20 := by exact_mod_cast h20
      have h24 : ((24 : ℕ) : ℚ) = 24 := by norm_num
      rw [h24]
      linarith
    exact ⟨hlt, (create_video_duration_short k 24 h1 (by norm_num) hlt).2⟩

/-- Witness for C9 at the default frame count 15: the natural duration
is below 4 seconds and the final duration is exactly 4. -/
theorem endpoint_duration_c9_witness :
    natural_duration 15 24 < 4 ∧ create_video_duration 15 24 = 4 :=
  endpoint_duration_c9.2.2 15 (by decide) (by decide)

/-- Claim C7: with a non-blank prompt, when zero frames are generated
the route answers 500 with the fixed non-empty error message, and when
frames exist but encoding raises it answers 500 with the exception
text; in both cases the frames directory ends empty and the metadata
document and videos directory are unchanged. -/
theorem generate_failure_cleanup_c7 (env : GenEnv) (prompt_raw : String)
    (req : Int) (st : AppState) (hp : py_strip prompt_raw ≠ "") :
    (generate_frames env.outcomes (clamp_num_frames req).toNat = [] →
       (generate_video env prompt_raw req st).status = 500 ∧
       (generate_video env prompt_raw req st).error =
         some "Failed to generate frames" ∧
       "Failed to generate frames" ≠ "" ∧
       (generate_video env prompt_raw req st).state.frames_dir = [] ∧
       (generate_video env prompt_raw req st).state.metadata = st.metadata ∧
       (generate_video env prompt_raw req st).state.videos_dir = st.videos_dir) ∧
    (generate_frames env.outcomes (clamp_num_frames req).toNat ≠ [] →
       env.encode_ok = false →
       (generate_video env prompt_raw req st).status = 500 ∧
       (generate_video env prompt_raw req st).error = some env.encode_error ∧
       (generate_video env prompt_raw req st).state.frames_dir = [] ∧
       (generate_video env prompt_raw req st).state.metadata = st.metadata ∧
       (generate_video env prompt_raw req st).state.videos_dir = st.videos_dir) := by
  constructor
  · intro hempty
    rw [generate_video_no_frames env prompt_raw req st hp hempty]
    exact ⟨rfl, rfl, by decide, rfl, rfl, rfl⟩
  · intro hne henc
    rw [generate_video_encode_fail env prompt_raw req st hp hne henc]
    exact ⟨rfl, rfl, rfl, rfl, rfl⟩

/-- Witness for C7: with every fetch failing, the concrete request
answers 500, the frames directory ends empty and the metadata document
is unchanged. -/
theorem generate_failure_cleanup_c7_witness :
    (generate_video c7_env "a calm lake at dawn" 15 st_empty).status = 500 ∧
    (generate_video c7_env "a calm lake at dawn" 15 st_empty).state.frames_dir = [] ∧
    (generate_video c7_env "a calm lake at dawn" 15 st_empty).state.metadata =
      st_empty.metadata := by
  have h := (generate_failure_cleanup_c7 c7_env "a calm lake at dawn" 15 st_empty
    (by decide)).1 (by decide)
  exact ⟨h.1, h.2.2.2.1, h.2.2.2.2.1⟩

/-- Claim C2: a successful generation increments total_generated by
exactly one, any other generation outcome leaves it unchanged, every
deletion leaves it unchanged, and after generating 3 videos and
deleting 2 the counter reads 3 while one stored record remains. -/
theorem total_generated_c2 :
    (∀ (env : GenEnv) (prompt_raw : String) (req : Int) (st : AppState),
       (generate_video env prompt_raw req st).status = 200 →
       (generate_video env prompt_raw req st).state.metadata.total_generated =
         st.metadata.total_generated + 1) ∧
    (∀ (env : GenEnv) (prompt_raw : String) (req : Int) (st : AppState),
       (generate_video env prompt_raw req st).status ≠ 200 →
       (generate_video env prompt_raw req st).state.metadata.total_generated =
         st.metadata.total_generated) ∧
    (∀ (a : Bool) (m : Metadata) (files : List String) (i : String),
       (delete_video a m files i).metadata.total_generated =
         m.total_generated) ∧
    (c2_final.metadata.total_generated = 3 ∧
       c2_final.metadata.videos.length = 1) := by
  have hdel : ∀ (a : Bool) (m : Metadata) (files : List String) (i : String),
      (delete_video a m files i).metadata.total_generated = m.total_generated := by
    intro a m files i
    unfold delete_video
    split
    · rfl
    · split <;> rfl
  refine ⟨?_, ?_, hdel, by decide⟩
  · intro env prompt_raw req st hstatus
    by_cases hp : py_strip prompt_raw = ""
    · rw [generate_video_blank env prompt_raw req st hp] at hstatus
      simp at hstatus
    · by_cases hempty :
          generate_frames env.outcomes (clamp_num_frames req).toNat = []
      · rw [generate_video_no_frames env prompt_raw req st hp hempty] at hstatus
        simp at hstatus
      · by_cases henc : env.encode_ok = true
        · rw [generate_video_success env prompt_raw req st hp hempty henc]
          rfl
        · have henc' : env.encode_ok = false := by
            cases h : env.encode_ok
            · rfl
            · exact absurd h henc
          rw [generate_video_encode_fail env prompt_raw req st hp hempty henc']
            at hstatus
          simp at hstatus
  · intro env prompt_raw req st hstatus
    by_cases hp : py_strip prompt_raw = ""
    · rw [generate_video_blank env prompt_raw req st hp]
    · by_cases hempty :
          generate_frames env.outcomes (clamp_num_frames req).toNat = []
      · rw [generate_video_no_frames env prompt_raw req st hp hempty]
      · by_cases henc : env.encode_ok = true
        · rw [generate_video_success env prompt_raw req st hp hempty henc]
            at hstatus
          exact absurd rfl hstatus
        · have henc' : env.encode_ok = false := by
            cases h : env.encode_ok
            · rfl
            · exact absurd h henc
          rw [generate_video_encode_fail env prompt_raw req st hp hempty henc']

/-- Witness for C2: the first concrete successful generation of the
scenario increments the counter from 0 to 1. -/
theorem total_generated_c2_witness :
    (generate_video (c2_env 1) "a calm lake at dawn" 15 st_empty).state.metadata.total_generated =
      st_empty.metadata.total_generated + 1 :=
  total_generated_c2.1 (c2_env 1) "a calm lake at dawn" 15 st_empty (by decide)

/-- Evaluation of an authorized delete when a matching record is
found. -/
theorem delete_video_found (m : Metadata) (files : List String)
    (i : String) (w : VideoRecord)
    (hw : m.videos.find? (fun v => v.id == i) = some w) :
    delete_video true m files i =
      ⟨200, true, ⟨m.videos.filter (fun v => !(v.id == i)), m.total_generated⟩,
        files.filter (fun f => !(f == w.filename))⟩ := by
  unfold delete_video
  rw [if_neg (by decide), hw]

/-- Evaluation of an authorized delete when no record matches. -/
theorem delete_video_not_found (m : Metadata) (files : List String)
    (i : String)
    (hnone : m.videos.find? (fun v => v.id == i) = none) :
    delete_video true m files i = ⟨404, false, m, files⟩ := by
  unfold delete_video
  rw [if_neg (by decide), hnone]

/-- Splitting a list length into the matches and non-matches of a
Boolean predicate. -/
theorem countP_not_add_countP {α : Type} (p : α → Bool) :
    ∀ l : List α,
      (l.filter (fun x => !(p x))).length + l.countP p = l.length := by
  intro l
  induction l with
  | nil => rfl
  | cons a t ih =>
    rw [List.countP_cons, List.filter_cons, List.length_cons]
    cases hp : p a <;> simp [hp] <;> omega

/-- Counterexample to Claim C3 as stated: on a document holding two
records with the same id, an authorized delete of that id removes both
records, not exactly one. -/
theorem delete_video_c3_counterexample :
    dup_record ∈ dup_metadata.videos ∧ dup_record.id = "vid_9_1000" ∧
    ¬ ((delete_video true dup_metadata ["anvesh_video_9.mp4"]
          "vid_9_1000").metadata.videos.length + 1 =
        dup_metadata.videos.length) := by decide

/-- Claim C3 as amended: an authorized delete of an id held by some
record answers success, removes every record with that id from any
document (no surviving record carries the id), deletes the backing
file of the found (first matching) record, and leaves the counter
alone; when the ids in the document are distinct, exactly one record
is removed and the deleted file is that of the matching record; an
authorized delete of an unknown id changes nothing and answers 404. -/
theorem delete_video_c3_amended (m : Metadata) (files : List String)
    (i : String) :
    (∀ v ∈ m.videos, v.id = i →
       (delete_video true m files i).status = 200 ∧
       (delete_video true m files i).ok = true ∧
       (delete_video true m files i).metadata.videos =
         m.videos.filter (fun w => !(w.id == i)) ∧
       (∀ w ∈ (delete_video true m files i).metadata.videos, w.id ≠ i) ∧
       (delete_video true m files i).metadata.total_generated =
         m.total_generated ∧
       (∃ w, m.videos.find? (fun x => x.id == i) = some w ∧
          w.id = i ∧ w ∈ m.videos ∧
          (delete_video true m files i).files =
            files.filter (fun f => !(f == w.filename)))) ∧
    ((m.videos.map VideoRecord.id).Nodup →
       ∀ v ∈ m.videos, v.id = i →
       (delete_video true m files i).metadata.videos.length + 1 =
         m.videos.length ∧
       (delete_video true m files i).files =
         files.filter (fun f => !(f == v.filename))) ∧
    ((∀ v ∈ m.videos, v.id ≠ i) →
       delete_video true m files i = ⟨404, false, m, files⟩) := by
  refine ⟨?_, ?_, ?_⟩
  · intro v hv hvi
    have hsome : (m.videos.find? (fun x => x.id == i)).isSome :=
      List.find?_isSome.mpr ⟨v, hv, by simp [hvi]⟩
    obtain ⟨w, hw⟩ := Option.isSome_iff_exists.mp hsome
    have hwid : w.id = i := by
      have := List.find?_some hw
      simpa using this
    rw [delete_video_found m files i w hw]
    refine ⟨rfl, rfl, rfl, ?_, rfl,
      ⟨w, hw, hwid, List.mem_of_find?_eq_some hw, rfl⟩⟩
    intro x hx
    have hxf := (List.mem_filter.mp hx).2
    simpa using hxf
  · intro hnodup v hv hvi
    have hsome : (m.videos.find? (fun x => x.id == i)).isSome :=
      List.find?_isSome.mpr ⟨v, hv, by simp [hvi]⟩
    obtain ⟨w, hw⟩ := Option.isSome_iff_exists.mp hsome
    have hwid : w.id = i := by
      have := List.find?_some hw
      simpa using this
    have hwmem : w ∈ m.videos := List.mem_of_find?_eq_some hw
    have hwv : w = v :=
      List.inj_on_of_nodup_map hnodup hwmem hv (by rw [hwid, hvi])
    have hmem_map : i ∈ m.videos.map VideoRecord.id :=
      List.mem_map.mpr ⟨v, hv, hvi⟩
    have hcount : (m.videos.map VideoRecord.id).count i = 1 :=
      List.count_eq_one_of_mem hnodup hmem_map
    have hcountP : m.videos.countP (fun x => x.id == i) = 1 := by
      rw [List.count_eq_countP, List.countP_map] at hcount
      simpa [Function.comp] using hcount
    have hlen := countP_not_add_countP (fun x => x.id == i) m.videos
    rw [hcountP] at hlen
    rw [delete_video_found m files i w hw]
    subst hwv
    exact ⟨hlen, rfl⟩
  · intro hall
    have hnone : m.videos.find? (fun x => x.id == i) = none :=
      List.find?_eq_none.mpr (fun x hx => by simp [hall x hx])
    exact delete_video_not_found m files i hnone

/-- Witness for the amended C3, exercising all three clauses: on the
duplicate-id document the delete succeeds and no surviving record
carries the id (both copies are gone); on the distinct-id document
exactly one of the two records is removed; deleting an unknown id
leaves the document and files unchanged with 404. -/
theorem delete_video_c3_amended_witness :
    ((delete_video true dup_metadata ["anvesh_video_9.mp4"]
        "vid_9_1000").status = 200 ∧
     (∀ w ∈ (delete_video true dup_metadata ["anvesh_video_9.mp4"]
        "vid_9_1000").metadata.videos, w.id ≠ "vid_9_1000")) ∧
    (delete_video true c3_metadata
        ["anvesh_video_1.mp4", "anvesh_video_2.mp4"]
        "vid_1_1000").metadata.videos.length + 1 = c3_metadata.videos.length ∧
    delete_video true c3_metadata
        ["anvesh_video_1.mp4", "anvesh_video_2.mp4"] "vid_9_9999" =
      ⟨404, false, c3_metadata, ["anvesh_video_1.mp4", "anvesh_video_2.mp4"]⟩ := by
  have h0 := (delete_video_c3_amended dup_metadata ["anvesh_video_9.mp4"]
      "vid_9_1000").1 dup_record (by decide) (by decide)
  have h1 := (delete_video_c3_amended c3_metadata
      ["anvesh_video_1.mp4", "anvesh_video_2.mp4"] "vid_1_1000").2.1 (by decide)
    ⟨"vid_1_1000", "anvesh_video_1.mp4", "p", 15, "t", 10⟩ (by decide) (by decide)
  have h2 := (delete_video_c3_amended c3_metadata
      ["anvesh_video_1.mp4", "anvesh_video_2.mp4"] "vid_9_9999").2.2
    (by decide)
  exact ⟨⟨h0.1, h0.2.2.2.1⟩, h1.1, h2⟩
